import Mathlib

/-!
Shallow embedding of the EbayCustomAlgo ranking core:
- `EbayRankingEngine` preference scorer (src/unnamed/part_000, also duplicated in
  `EnhancedEbayRankingEngine`'s private methods in src/PROJECT_SUMMARY.md),
- `MLDealScoringService` (src/src/lib/ml-deal-scoring.ts),
- `AzureOpenAIEmbeddingService` batch embedding and cosine similarity
  (src/src/lib/azure-openai-service.ts),
- `EnhancedEbayRankingEngine` fusion and explanation engine (src/PROJECT_SUMMARY.md).

JavaScript numbers are modelled as rationals.  Preference fields that the code
tests with JavaScript truthiness (`!maxPrice`, `!minimumRating`) are modelled by
`Option JNum`, where `JNum` distinguishes NaN from an actual number, since
`undefined`, `NaN` and `0` are all falsy.  The transcendental library functions
`Math.exp`, `Math.tanh`, `Math.sqrt` and the regex-based title-quality heuristic
are abstracted as a `MathOps` parameter: no verified claim depends on their
values, only on how the surrounding code uses their results.

`Math.min` / `Math.max` / `Math.abs` / `Math.round` and the string operations
are implemented here directly on `ℚ` and `List Char` (rather than through
Mathlib's lattice operations and core's `String` primitives) so that every
definition evaluates by kernel reduction; `jmin_eq` / `jmax_eq` relate them to
Mathlib's `min` / `max`.
-/

namespace EbayAlgo

/-- `Math.max` on rationals. -/
def jmax (a b : ℚ) : ℚ := if a ≤ b then b else a

/-- `Math.min` on rationals. -/
def jmin (a b : ℚ) : ℚ := if a ≤ b then a else b

/-- `Math.abs` on rationals. -/
def jabs (a : ℚ) : ℚ := if a < 0 then -a else a

theorem jmax_eq (a b : ℚ) : jmax a b = max a b := (max_def a b).symm

theorem jmin_eq (a b : ℚ) : jmin a b = min a b := (min_def a b).symm

theorem jabs_eq (a : ℚ) : jabs a = |a| := by
  unfold jabs
  rcases lt_or_le a 0 with h | h
  · rw [if_pos h, abs_of_neg h]
  · rw [if_neg (not_lt.mpr h), abs_of_nonneg h]

/-- Floor of a rational, computed by floor division of the numerator by the
denominator (kernel-reducible, unlike `Int.floor`). -/
def jfloor (x : ℚ) : ℤ := x.num.fdiv x.den

theorem jfloor_eq (x : ℚ) : jfloor x = ⌊x⌋ := by
  rw [jfloor, Rat.floor_def, Int.fdiv_eq_ediv _ (Int.ofNat_nonneg x.den)]

/-- `Math.round(x)`: JavaScript rounds half toward positive infinity, i.e.
`Math.round(x) = floor(x + 1/2)`. -/
def jround (x : ℚ) : ℚ := ((jfloor (x + 1/2)) : ℚ)

/-- `Math.round(x * 100) / 100` — round to 2 decimal places. -/
def round2 (x : ℚ) : ℚ := jround (x * 100) / 100

/-- A JavaScript number that may be NaN. -/
inductive JNum where
  | nan : JNum
  | num (q : ℚ) : JNum
deriving DecidableEq

/-- Uppercase a string character-wise (JavaScript `toUpperCase` on the ASCII
range used by the code). -/
def strUpper (s : String) : String := String.mk (s.data.map Char.toUpper)

/-- Lowercase a string character-wise (JavaScript `toLowerCase`). -/
def strLower (s : String) : String := String.mk (s.data.map Char.toLower)

/-- Does the needle start the haystack (lists of characters)? -/
def beginsWith : List Char → List Char → Bool
  | [], _ => true
  | _ :: _, [] => false
  | a :: n, b :: h => a == b && beginsWith n h

/-- Does the needle occur contiguously in the haystack?  Models JavaScript
`String.prototype.includes`. -/
def occursIn : List Char → List Char → Bool
  | n, [] => n.isEmpty
  | n, c :: t => beginsWith n (c :: t) || occursIn n t

/-- `hay.includes(needle)` on strings. -/
def strIncludes (hay needle : String) : Bool := occursIn needle.data hay.data

/-- Remove leading and trailing whitespace (JavaScript `trim`). -/
def trimChars (cs : List Char) : List Char :=
  ((cs.dropWhile Char.isWhitespace).reverse.dropWhile Char.isWhitespace).reverse

/-- A listing as consumed by the scoring code.  `price` is the parsed
`parseFloat(item.price.value)`; `feedbackPercentage` is
`item.seller.feedbackPercentage`; `shippingOptions` holds the parsed
`shippingCost.value` of each option, `none` when the optional array is absent. -/
structure EbayItem where
  title : String
  shortDescription : Option String
  price : ℚ
  condition : String
  feedbackPercentage : ℚ
  shippingOptions : Option (List ℚ)
deriving DecidableEq

/-- User preferences; every field is optional in the TypeScript interface. -/
structure UserPreferences where
  maxPrice : Option JNum
  preferredCondition : Option (List String)
  minimumSellerRating : Option JNum
  freeShippingOnly : Option Bool
  keywords : Option (List String)
deriving DecidableEq

/-- The five per-item sub-scores (`rankingFactors` in the source). -/
structure RankingFactors where
  priceScore : ℚ
  conditionScore : ℚ
  sellerScore : ℚ
  shippingScore : ℚ
  keywordScore : ℚ
deriving DecidableEq

/-- The `RankedItem` produced by the preference scorer (item spread plus
`relevanceScore` and `rankingFactors`). -/
structure RankedItem where
  item : EbayItem
  relevanceScore : ℚ
  rankingFactors : RankingFactors
deriving DecidableEq

/-- `EbayRankingEngine.calculatePriceScore`.  `if (!maxPrice) return 50`:
absent, NaN and `0` are all falsy. -/
def calculatePriceScore (item : EbayItem) (maxPrice : Option JNum) : ℚ :=
  match maxPrice with
  | some (JNum.num m) =>
    if m = 0 then 50
    else if item.price > m then 0
    else jmax 0 (100 - (item.price / m) * 50)
  | _ => 50

/-- `EbayRankingEngine.calculateConditionScore`. -/
def calculateConditionScore (item : EbayItem) (preferredConditions : Option (List String)) : ℚ :=
  match preferredConditions with
  | none => 50
  | some pcs =>
    if pcs.length = 0 then 50
    else
      let ic := strUpper item.condition
      if (pcs.map strUpper).contains ic then 100
      else if strIncludes ic "NEW" && pcs.any (fun c => strIncludes (strUpper c) "NEW") then 80
      else if strIncludes ic "USED" && pcs.any (fun c => strIncludes (strUpper c) "USED") then 60
      else 20

/-- `EbayRankingEngine.calculateSellerScore`.  `if (!minimumRating) return 50`:
absent, NaN and `0` are all falsy. -/
def calculateSellerScore (item : EbayItem) (minimumRating : Option JNum) : ℚ :=
  match minimumRating with
  | some (JNum.num m) =>
    if m = 0 then 50
    else if item.feedbackPercentage < m then 0
    else jmin 100 (50 + jmin ((item.feedbackPercentage - m) * 2) 50)
  | _ => 50

/-- `EbayRankingEngine.calculateShippingScore`.  An absent `shippingOptions`
array makes `hasFreeShipping` undefined, hence falsy. -/
def calculateShippingScore (item : EbayItem) (freeShippingOnly : Option Bool) : ℚ :=
  match freeShippingOnly with
  | some true =>
    match item.shippingOptions with
    | some opts => if opts.any (fun c => c == 0) then 100 else 0
    | none => 0
  | _ => 50

/-- `EbayRankingEngine.calculateKeywordScore`. -/
def calculateKeywordScore (item : EbayItem) (keywords : Option (List String)) : ℚ :=
  match keywords with
  | none => 50
  | some ks =>
    if ks.length = 0 then 50
    else
      let itemText := strLower (item.title ++ " " ++ item.shortDescription.getD "")
      let matchCount := (ks.filter (fun k => strIncludes itemText (strLower k))).length
      jmin 100 (((matchCount : ℚ) / (ks.length : ℚ)) * 100)

/-- `EbayRankingEngine.calculateRelevanceScore`: the five sub-scores and their
fixed-weight composite, rounded to 2 decimal places. -/
def calculateRelevanceScore (item : EbayItem) (preferences : UserPreferences) : RankedItem :=
  let priceScore := calculatePriceScore item preferences.maxPrice
  let conditionScore := calculateConditionScore item preferences.preferredCondition
  let sellerScore := calculateSellerScore item preferences.minimumSellerRating
  let shippingScore := calculateShippingScore item preferences.freeShippingOnly
  let keywordScore := calculateKeywordScore item preferences.keywords
  let relevanceScore :=
    priceScore * (25/100) + conditionScore * (15/100) + sellerScore * (20/100) +
      shippingScore * (15/100) + keywordScore * (25/100)
  { item
    relevanceScore := round2 relevanceScore
    rankingFactors := { priceScore, conditionScore, sellerScore, shippingScore, keywordScore } }

/-- Descending comparison on `relevanceScore` used by `rankItems`
(`(a, b) => b.relevanceScore - a.relevanceScore`, a stable sort in V8). -/
def rankedLe (a b : RankedItem) : Bool := decide (b.relevanceScore ≤ a.relevanceScore)

/-- `EbayRankingEngine.rankItems`: score, filter on `relevanceScore > 0`, sort
descending (preference-only path). -/
def rankItems (items : List EbayItem) (preferences : UserPreferences) : List RankedItem :=
  ((items.map (fun it => calculateRelevanceScore it preferences)).filter
      (fun r => decide (0 < r.relevanceScore))).mergeSort rankedLe

/-! ### Deal quality model (`MLDealScoringService`, src/src/lib/ml-deal-scoring.ts) -/

/-- Abstraction of the transcendental JavaScript library functions and of the
regex-based `calculateTitleQuality` heuristic.  `scoreDeal` and
`calculateCosineSimilarity` are parameterized over these; no verified claim
depends on their values. -/
structure MathOps where
  exp : ℚ → ℚ
  tanh : ℚ → ℚ
  sqrt : ℚ → ℚ
  titleQuality : String → ℚ

/-- A concrete instantiation of `MathOps` used in witness statements. -/
def opsId : MathOps :=
  { exp := fun q => q, tanh := fun q => q, sqrt := fun q => q, titleQuality := fun _ => 0 }

/-- The four deal recommendation categories. -/
inductive Recommendation where
  | excellent : Recommendation
  | good : Recommendation
  | fair : Recommendation
  | poor : Recommendation
deriving DecidableEq

/-- Per-factor breakdown inside a `DealScore`. -/
structure DealFactors where
  priceScore : ℚ
  sellerScore : ℚ
  shippingScore : ℚ
  conditionScore : ℚ
  titleScore : ℚ
  freshnessScore : ℚ
deriving DecidableEq

/-- The `DealScore` interface. -/
structure DealScore where
  overallScore : ℚ
  confidence : ℚ
  factors : DealFactors
  recommendation : Recommendation
deriving DecidableEq

/-- The `DealFeatures` interface.  `shippingCostFrac` embeds the source field
`shippingCostRatio`. -/
structure DealFeatures where
  priceVsAverage : ℚ
  sellerRating : ℚ
  shippingCostFrac : ℚ
  conditionScore : ℚ
  titleQualityScore : ℚ
  listingAgeScore : ℚ
  bidCountScore : ℚ
deriving DecidableEq

/-- A possibly malformed listing as seen at runtime by `scoreDeal`: the
TypeScript type promises every field, but a runtime value may lack one, and
accessing a member of `undefined` throws — which is exactly what `scoreDeal`'s
`try`/`catch` guards against.  `none` marks an absent `item.price`,
`item.condition`, `item.title` or `item.seller`. -/
structure RawEbayItem where
  title : Option String
  price : Option ℚ
  condition : Option String
  feedbackPercentage : Option ℚ
  shippingOptions : Option (List ℚ)
deriving DecidableEq

/-- A well-formed listing viewed as a runtime value. -/
def EbayItem.toRaw (it : EbayItem) : RawEbayItem :=
  { title := some it.title, price := some it.price, condition := some it.condition,
    feedbackPercentage := some it.feedbackPercentage, shippingOptions := it.shippingOptions }

/-- Member access on a possibly absent value: accessing a member of
`undefined` throws a `TypeError`. -/
def member : Option α → Except Unit α
  | some a => Except.ok a
  | none => Except.error ()

/-- The sample market averages installed by `initializeMarketAverages`. -/
def marketAverages : List (String × ℚ) :=
  [("electronics", 250), ("clothing", 45), ("books", 15),
   ("home", 85), ("automotive", 150), ("general", 75)]

/-- `getMarketAverage`: `if (average) return average` (truthiness), else
`currentPrice * 1.2`. -/
def getMarketAverage (category : String) (currentPrice : ℚ) : ℚ :=
  match marketAverages.lookup category with
  | some average => if average ≠ 0 then average else currentPrice * (12/10)
  | none => currentPrice * (12/10)

/-- Replace each maximal whitespace run by one underscore
(`replace(/\s+/g, '_')`); the flag records whether the previous character was
whitespace. -/
def wsToUnderscore : List Char → Bool → List Char
  | [], _ => []
  | c :: cs, prevWs =>
    if c.isWhitespace then
      if prevWs then wsToUnderscore cs true else Char.ofNat 95 :: wsToUnderscore cs true
    else c :: wsToUnderscore cs false

/-- The fixed condition → quality table of `calculateConditionScore` in the
deal model. -/
def conditionTable : List (String × ℚ) :=
  [("NEW", 1), ("LIKE_NEW", 9/10), ("EXCELLENT", 85/100), ("VERY_GOOD", 75/100),
   ("GOOD", 6/10), ("ACCEPTABLE", 4/10), ("USED", 1/2), ("REFURBISHED", 7/10),
   ("FOR_PARTS_OR_NOT_WORKING", 2/10)]

/-- `MLDealScoringService.calculateConditionScore`: uppercase, collapse
whitespace to underscores, look up; `|| 0.5` (truthiness) on the result. -/
def dealConditionScore (condition : String) : ℚ :=
  let normalized := String.mk (wsToUnderscore (strUpper condition).data false)
  match conditionTable.lookup normalized with
  | some v => if v ≠ 0 then v else 1/2
  | none => 1/2

/-- `calculateShippingRatio`: 0.5 when the options array is absent or empty,
0 for confirmed-free first option, else `min(1, cost/price)`. -/
def calculateShippingFrac (shippingOptions : Option (List ℚ)) (itemPrice : ℚ) : ℚ :=
  match shippingOptions with
  | none => 1/2
  | some [] => 1/2
  | some (cost :: _) => if cost = 0 then 0 else jmin 1 (cost / itemPrice)

/-- `extractFeatures`, with member accesses that can throw made explicit in
`Except`.  Field-access order follows the source: `item.price.value` first,
then within the object literal `item.seller.feedbackPercentage`,
`item.shippingOptions`, `item.condition`, `item.title`. -/
def extractFeaturesE (ops : MathOps) (item : RawEbayItem) (marketCategory : Option String) :
    Except Unit DealFeatures := do
  let price ← member item.price
  let marketAverage := getMarketAverage (marketCategory.getD "general") price
  let rating ← member item.feedbackPercentage
  let shippingCostFrac := calculateShippingFrac item.shippingOptions price
  let cond ← member item.condition
  let title ← member item.title
  Except.ok
    { priceVsAverage := ops.tanh ((price / marketAverage - 1) * 2)
      sellerRating := rating / 100
      shippingCostFrac
      conditionScore := dealConditionScore cond
      titleQualityScore := ops.titleQuality title
      listingAgeScore := 8/10
      bidCountScore := 6/10 }

/-- `calculateDealScore`: fixed linear model followed by the logistic
function. -/
def calculateDealScore (ops : MathOps) (f : DealFeatures) : ℚ :=
  let score :=
    f.priceVsAverage * (-(35/100) : ℚ) + f.sellerRating * (25/100) +
      f.shippingCostFrac * (-(15/100) : ℚ) + f.conditionScore * (20/100) +
      f.titleQualityScore * (10/100) + f.listingAgeScore * (5/100) +
      f.bidCountScore * (5/100) + (15/100)
  1 / (1 + ops.exp (-score))

/-- `calculateConfidence`: base 0.5 with fixed adjustments, clamped to
`[0.1, 1.0]`. -/
def calculateConfidence (f : DealFeatures) : ℚ :=
  let c : ℚ := 1/2
  let c := if f.sellerRating > 95/100 then c + 2/10 else c
  let c := if jabs f.priceVsAverage > 3/10 then c + 15/100 else c
  let c := if f.titleQualityScore > 8/10 then c + 1/10 else c
  let c := if f.sellerRating < 9/10 then c - 15/100 else c
  jmax (1/10) (jmin 1 c)

/-- `calculateFactorScores`. -/
def calculateFactorScores (f : DealFeatures) : DealFactors :=
  { priceScore := jround ((1 - jabs f.priceVsAverage) * 100)
    sellerScore := jround (f.sellerRating * 100)
    shippingScore := jround ((1 - f.shippingCostFrac) * 100)
    conditionScore := jround (f.conditionScore * 100)
    titleScore := jround (f.titleQualityScore * 100)
    freshnessScore := jround (f.listingAgeScore * 100) }

/-- `getRecommendation`: thresholds 80 / 65 / 40. -/
def getRecommendation (score : ℚ) : Recommendation :=
  if score ≥ 80 then Recommendation.excellent
  else if score ≥ 65 then Recommendation.good
  else if score ≥ 40 then Recommendation.fair
  else Recommendation.poor

/-- The neutral fallback returned by `scoreDeal`'s `catch` branch. -/
def neutralDealScore : DealScore :=
  { overallScore := 50
    confidence := 1/10
    factors :=
      { priceScore := 50, sellerScore := 50, shippingScore := 50,
        conditionScore := 50, titleScore := 50, freshnessScore := 50 }
    recommendation := Recommendation.fair }

/-- `MLDealScoringService.scoreDeal`: `try` the feature extraction and model,
`catch` anything into the neutral fallback. -/
def scoreDeal (ops : MathOps) (item : RawEbayItem) (marketCategory : Option String) : DealScore :=
  match extractFeaturesE ops item marketCategory with
  | Except.error _ => neutralDealScore
  | Except.ok features =>
    let rawScore := calculateDealScore ops features
    let overallScore := jmax 0 (jmin 100 (rawScore * 100))
    { overallScore := round2 overallScore
      confidence := round2 (calculateConfidence features)
      factors := calculateFactorScores features
      recommendation := getRecommendation overallScore }

/-- `scoreBatchDeals`: independent per-item scoring. -/
def scoreBatchDeals (ops : MathOps) (items : List RawEbayItem) (marketCategory : Option String) :
    List DealScore :=
  items.map (fun it => scoreDeal ops it marketCategory)

/-! ### Fusion and explanation engine (`EnhancedEbayRankingEngine`,
src/PROJECT_SUMMARY.md) -/

/-- JavaScript `a || b` on a nullable number: `null`, `undefined` and `0` all
fall through to the default. -/
def jsOr (s : Option ℚ) (d : ℚ) : ℚ :=
  match s with
  | none => d
  | some q => if q = 0 then d else q

/-- The caller-side rescaling of a cosine similarity to 0–100 in
`calculateSemanticScores`: `Math.max(0, Math.min(100, (similarity + 1) * 50))`. -/
def rescaleSimilarity (similarity : ℚ) : ℚ := jmax 0 (jmin 100 ((similarity + 1) * 50))

/-- `aiRankingFactors` of an `EnhancedRankedItem`. -/
structure AIRankingFactors where
  semanticSimilarity : ℚ
  dealQuality : ℚ
  traditionalRelevance : ℚ
  finalScore : ℚ
deriving DecidableEq

/-- The `explanation` record of an `EnhancedRankedItem`. -/
structure RankExplanation where
  semanticReason : Option String
  dealReason : String
  overallReason : String
deriving DecidableEq

/-- `EnhancedRankedItem`: the traditional `RankedItem` spread plus AI fields.
Note the source overwrites `relevanceScore` with the unrounded final score. -/
structure EnhancedRankedItem where
  item : EbayItem
  relevanceScore : ℚ
  rankingFactors : RankingFactors
  semanticScore : Option ℚ
  dealScore : DealScore
  aiRankingFactors : AIRankingFactors
  explanation : RankExplanation
deriving DecidableEq

/-- Lowercase rendering of a recommendation as interpolated into template
strings. -/
def recommendationText : Recommendation → String
  | Recommendation.excellent => "excellent"
  | Recommendation.good => "good"
  | Recommendation.fair => "fair"
  | Recommendation.poor => "poor"

/-- `getDealExplanation`.  The numeric interpolation of `overallScore` is
rendered through `toString` on `ℚ`; no claim depends on that rendering. -/
def getDealExplanation (dealScore : DealScore) : String :=
  let factors :=
    (if dealScore.factors.priceScore > 75 then ["competitive pricing"] else []) ++
    (if dealScore.factors.sellerScore > 85 then ["trusted seller"] else []) ++
    (if dealScore.factors.shippingScore > 80 then ["low shipping cost"] else []) ++
    (if dealScore.factors.conditionScore > 80 then ["good condition"] else [])
  let base := recommendationText dealScore.recommendation ++ " deal (" ++
    toString dealScore.overallScore ++ "% quality)"
  if factors.length > 0 then base ++ ": " ++ String.intercalate ", " factors else base

/-- `generateExplanation`.  Its `semanticScore` argument is the already
normalized value passed by `combineScores`. -/
def generateExplanation (semanticScore : ℚ) (dealScore : DealScore)
    (traditionalItem : RankedItem) : RankExplanation :=
  let semanticReason :=
    if semanticScore ≥ 75 then "Highly relevant to your search intent"
    else if semanticScore ≥ 60 then "Good match for your search intent"
    else if semanticScore ≥ 40 then "Somewhat relevant to your search"
    else "Limited relevance to your search intent"
  let dealReason := getDealExplanation dealScore
  let traditionalFactors :=
    (if traditionalItem.rankingFactors.priceScore > 70 then ["great price"] else []) ++
    (if traditionalItem.rankingFactors.sellerScore > 80 then ["excellent seller"] else []) ++
    (if traditionalItem.rankingFactors.shippingScore > 80 then ["free shipping"] else []) ++
    (if traditionalItem.rankingFactors.keywordScore > 70 then ["keyword match"] else [])
  let overallBase :=
    if semanticScore ≥ 70 ∧ dealScore.overallScore ≥ 70 then
      "Excellent match: highly relevant and great deal quality"
    else if semanticScore ≥ 60 ∨ dealScore.overallScore ≥ 70 then
      "Good option: " ++
        (if semanticScore ≥ 60 then "relevant to your needs" else "attractive deal")
    else
      "Consider carefully: " ++
        (if semanticScore < 40 then "limited relevance" else "fair deal quality")
  let overallReason :=
    if traditionalFactors.length > 0 then
      overallBase ++ " (" ++ String.intercalate ", " traditionalFactors ++ ")"
    else overallBase
  { semanticReason := if semanticScore ≠ 0 then some semanticReason else none
    dealReason
    overallReason }

/-- `EnhancedEbayRankingEngine.combineScores`: weights 0.35 / 0.35 / 0.30,
neutral semantic fallback chosen by `semanticScore || 50`. -/
def combineScores (traditionalItem : RankedItem) (semanticScore : Option ℚ)
    (dealScore : DealScore) : EnhancedRankedItem :=
  let normalizedTraditional := traditionalItem.relevanceScore
  let normalizedSemantic := jsOr semanticScore 50
  let normalizedDeal := dealScore.overallScore
  let finalScore :=
    normalizedSemantic * (35/100) + normalizedDeal * (35/100) +
      normalizedTraditional * (30/100)
  { item := traditionalItem.item
    relevanceScore := finalScore
    rankingFactors := traditionalItem.rankingFactors
    semanticScore :=
      match semanticScore with
      | some q => if q = 0 then none else some q
      | none => none
    dealScore
    aiRankingFactors :=
      { semanticSimilarity := round2 normalizedSemantic
        dealQuality := round2 normalizedDeal
        traditionalRelevance := round2 normalizedTraditional
        finalScore := round2 finalScore }
    explanation := generateExplanation normalizedSemantic dealScore traditionalItem }

/-- `getTraditionalRanking`: the preference scorer applied to every item, no
filtering. -/
def getTraditionalRanking (items : List EbayItem) (preferences : UserPreferences) :
    List RankedItem :=
  items.map (fun it => calculateRelevanceScore it preferences)

/-- Descending comparison on the final combined score
(`(a, b) => b.aiRankingFactors.finalScore - a.aiRankingFactors.finalScore`). -/
def enhancedLe (a b : EnhancedRankedItem) : Bool :=
  decide (b.aiRankingFactors.finalScore ≤ a.aiRankingFactors.finalScore)

/-- `EnhancedEbayRankingEngine.rankItemsWithAI`.  The semantic phase is the
only network-bound step; its per-item output is passed in as
`semanticScores` — `[]` when no query was supplied or the embedding provider
is unavailable (the source then indexes past the end, yielding `undefined`,
modelled by `getD _ none`).  Deal scores are computed internally by
`scoreBatchDeals`, as in the source. -/
def rankItemsWithAI (ops : MathOps) (semanticScores : List (Option ℚ))
    (items : List EbayItem) (preferences : UserPreferences) : List EnhancedRankedItem :=
  let traditionalRanked := getTraditionalRanking items preferences
  let dealScores := scoreBatchDeals ops (items.map EbayItem.toRaw) none
  let enhancedItems := traditionalRanked.enum.map
    (fun p => combineScores p.2 (semanticScores.getD p.1 none) (dealScores.getD p.1 neutralDealScore))
  enhancedItems.mergeSort enhancedLe

/-! ### Embedding service (`AzureOpenAIEmbeddingService`,
src/src/lib/azure-openai-service.ts) -/

/-- JavaScript `trim`. -/
def strTrim (s : String) : String := String.mk (trimChars s.data)

/-- Replace each maximal whitespace run by one space (`replace(/\s+/g, ' ')`);
the flag records whether the previous character was whitespace. -/
def collapseWs : List Char → Bool → List Char
  | [], _ => []
  | c :: cs, prevWs =>
    if c.isWhitespace then
      if prevWs then collapseWs cs true else Char.ofNat 32 :: collapseWs cs true
    else c :: collapseWs cs false

/-- `preprocessText`: collapse whitespace, trim, truncate to 6000 characters. -/
def preprocessText (text : String) : String :=
  let cleaned := strTrim (String.mk (collapseWs text.data false))
  if cleaned.data.length > 6000 then String.mk (cleaned.data.take 6000) else cleaned

/-- The batch loop of `generateBatchEmbeddings`.  `call` models one
`client.embeddings.create` request on a group: `none` when the request throws
or returns no data (both branches push one `null` per *batch* entry), `some es`
when it answers with embeddings `es`.  `i` is the running start index of the
current group; after a successful call the result list is padded with `null`
until its length reaches `i + batch.length` (the source's `while` loop). -/
def generateBatchEmbeddingsGo (call : List String → Option (List (List ℚ))) :
    List String → ℕ → List (Option (List ℚ)) → List (Option (List ℚ))
  | [], _, results => results
  | t :: ts, i, results =>
    let batch := t :: ts.take 15
    let cleanBatch := (batch.map preprocessText).filter (fun s => !(strTrim s).isEmpty)
    let results' :=
      if cleanBatch.length = 0 then results ++ List.replicate batch.length none
      else
        match call cleanBatch with
        | some embeddings =>
          let pushed := results ++ embeddings.map some
          pushed ++ List.replicate (i + batch.length - pushed.length) none
        | none => results ++ List.replicate batch.length none
    generateBatchEmbeddingsGo call (ts.drop 15) (i + 16) results'
  termination_by texts => texts.length
  decreasing_by simp [List.length_drop]; omega

/-- `generateBatchEmbeddings`: when unconfigured, all-`null` of the input
length; otherwise groups of 16 processed sequentially. -/
def generateBatchEmbeddings (configured : Bool) (call : List String → Option (List (List ℚ)))
    (texts : List String) : List (Option (List ℚ)) :=
  if configured then generateBatchEmbeddingsGo call texts 0 []
  else texts.map (fun _ => none)

/-- The accumulated dot product of `calculateCosineSimilarity`'s loop. -/
def dotProduct (a b : List ℚ) : ℚ := (List.zipWith (fun x y => x * y) a b).sum

/-- The accumulated sum of squares (the quantity whose square root the source
calls `norm1` / `norm2`). -/
def sumSquares (v : List ℚ) : ℚ := (v.map (fun x => x * x)).sum

/-- `AzureOpenAIEmbeddingService.calculateCosineSimilarity`: throws on
dimension mismatch, returns 0 when either norm is 0, else the dot product over
the product of norms. -/
def calculateCosineSimilarity (ops : MathOps) (embedding1 embedding2 : List ℚ) :
    Except Unit ℚ :=
  if embedding1.length ≠ embedding2.length then Except.error ()
  else
    let dotP := dotProduct embedding1 embedding2
    let norm1 := ops.sqrt (sumSquares embedding1)
    let norm2 := ops.sqrt (sumSquares embedding2)
    if norm1 = 0 ∨ norm2 = 0 then Except.ok 0
    else Except.ok (dotP / (norm1 * norm2))

/-- Convenience: a well-formed listing with the given price and otherwise
inert fields, used in witness statements. -/
def itemWithPrice (p : ℚ) : EbayItem :=
  { title := "t", shortDescription := none, price := p, condition := "NEW",
    feedbackPercentage := 99, shippingOptions := none }

/-- All-absent preferences, used in witness statements. -/
def prefsNone : UserPreferences :=
  { maxPrice := none, preferredCondition := none, minimumSellerRating := none,
    freeShippingOnly := none, keywords := none }

/-- A runtime listing value whose `price` member is absent, so that
`parseFloat(item.price.value)` throws; used in witness statements. -/
def faultyItem : RawEbayItem :=
  { title := some "t", price := none, condition := some "NEW",
    feedbackPercentage := some 99, shippingOptions := none }

/-- The oracle answering every batch request with one embedding `[1]` per
submitted text; used for concrete batch-embedding evaluations. -/
def callUnit (ts : List String) : Option (List (List ℚ)) := some (ts.map (fun _ => [1]))

end EbayAlgo

namespace EbayAlgo

/-! ### Shared helper lemmas -/

theorem calculatePriceScore_nonneg (item : EbayItem) (maxPrice : Option JNum) :
    0 ≤ calculatePriceScore item maxPrice := by
  rcases maxPrice with _ | j
  · simp [calculatePriceScore]
  · rcases j with _ | m
    · simp [calculatePriceScore]
    · simp only [calculatePriceScore]
      split_ifs <;> simp [jmax_eq, le_max_left]

theorem sumSquares_nonneg (v : List ℚ) : 0 ≤ sumSquares v := by
  apply List.sum_nonneg
  intro x hx
  rw [List.mem_map] at hx
  obtain ⟨y, _, rfl⟩ := hx
  exact mul_self_nonneg y

theorem enhancedLe_trans (a b c : EnhancedRankedItem) :
    enhancedLe a b → enhancedLe b c → enhancedLe a c := by
  intro hab hbc
  simp only [enhancedLe, decide_eq_true_eq] at hab hbc ⊢
  exact le_trans hbc hab

theorem enhancedLe_total (a b : EnhancedRankedItem) : enhancedLe a b || enhancedLe b a := by
  simp only [enhancedLe, Bool.or_eq_true, decide_eq_true_eq]
  exact le_total _ _

theorem pairwise_mergeSort_finalScore (l : List EnhancedRankedItem) :
    (l.mergeSort enhancedLe).Pairwise
      (fun a b => b.aiRankingFactors.finalScore ≤ a.aiRankingFactors.finalScore) :=
  (List.sorted_mergeSort enhancedLe_trans enhancedLe_total l).imp
    (fun h => of_decide_eq_true h)

theorem combineScores_none_semanticReason (trad : RankedItem) (deal : DealScore) :
    (combineScores trad none deal).explanation.semanticReason =
      some "Somewhat relevant to your search" := by
  show (generateExplanation (jsOr none 50) deal trad).semanticReason = _
  norm_num [generateExplanation, jsOr]

/-! ### Claim theorems -/

/-- C10: a `maxPrice` or `minimumSellerRating` preference of exactly 0 is
treated the same as an absent field — the corresponding sub-score is the
neutral 50 for every listing, because presence is tested by truthiness — and a
NaN minimum seller rating likewise yields the neutral 50. -/
theorem zero_and_nan_pref_fields_neutral (it : EbayItem) :
    calculatePriceScore it (some (JNum.num 0)) = 50 ∧
    calculatePriceScore it none = 50 ∧
    calculateSellerScore it (some (JNum.num 0)) = 50 ∧
    calculateSellerScore it (some JNum.nan) = 50 ∧
    calculateSellerScore it none = 50 := by
  refine ⟨?_, ?_, ?_, ?_, ?_⟩ <;> simp [calculatePriceScore, calculateSellerScore]

/-- C9: a computed semantic similarity score of exactly 0 (cosine similarity
−1 rescaled to 0–100) is replaced by the neutral 50 during fusion, because the
fallback `semanticScore || 50` tests truthiness rather than null; hence a
fused final score is never computed from a semantic contribution of 0. -/
theorem semantic_zero_truthiness_neutral :
    rescaleSimilarity (-1) = 0
    ∧ (∀ (trad : RankedItem) (deal : DealScore),
        combineScores trad (some 0) deal = combineScores trad none deal)
    ∧ (∀ sem : Option ℚ, (∀ q, sem = some q → 0 ≤ q) → 0 < jsOr sem 50) := by
  refine ⟨?_, ?_, ?_⟩
  · norm_num [rescaleSimilarity, jmax, jmin]
  · intro trad deal
    simp [combineScores, jsOr]
  · intro sem h
    rcases sem with _ | q
    · norm_num [jsOr]
    · have hq : 0 ≤ q := h q rfl
      by_cases h0 : q = 0
      · simp [jsOr, h0]
      · simp only [jsOr, if_neg h0]
        exact lt_of_le_of_ne hq (Ne.symm h0)

/-- C9 witness: the neutral substitution applied at the concrete semantic
score `some 0`. -/
theorem semantic_zero_truthiness_neutral_witness : 0 < jsOr (some (0 : ℚ)) 50 :=
  semantic_zero_truthiness_neutral.2.2 (some 0) (fun _ hq => le_of_eq (Option.some.inj hq))

/-- C5: for a fixed positive max price, the price sub-score is monotonically
non-increasing in the listing price, equals 0 exactly when the price exceeds
the max price, otherwise equals `max(0, 100 − 50·(price/maxPrice))`; price 80
with max price 100 yields 60. -/
theorem calculatePriceScore_monotone_formula (m : ℚ) (hm : 0 < m) :
    (∀ it it' : EbayItem, it.price ≤ it'.price →
        calculatePriceScore it' (some (JNum.num m)) ≤ calculatePriceScore it (some (JNum.num m)))
    ∧ (∀ it : EbayItem, m < it.price → calculatePriceScore it (some (JNum.num m)) = 0)
    ∧ (∀ it : EbayItem, it.price ≤ m →
        calculatePriceScore it (some (JNum.num m)) = max 0 (100 - (it.price / m) * 50))
    ∧ calculatePriceScore (itemWithPrice 80) (some (JNum.num 100)) = 60 := by
  have hover : ∀ it : EbayItem, m < it.price →
      calculatePriceScore it (some (JNum.num m)) = 0 := by
    intro it h
    simp only [calculatePriceScore, if_neg hm.ne', if_pos h]
  have hunder : ∀ it : EbayItem, it.price ≤ m →
      calculatePriceScore it (some (JNum.num m)) = max 0 (100 - (it.price / m) * 50) := by
    intro it h
    simp only [calculatePriceScore, if_neg hm.ne', if_neg (not_lt.mpr h), jmax_eq]
  refine ⟨?_, hover, hunder, ?_⟩
  · intro it it' hle
    by_cases h' : m < it'.price
    · rw [hover it' h']
      exact calculatePriceScore_nonneg it _
    · have hle' : it'.price ≤ m := not_lt.mp h'
      rw [hunder it' hle', hunder it (le_trans hle hle')]
      have hdiv : it.price / m ≤ it'.price / m := by gcongr
      exact max_le_max le_rfl (by linarith)
  · norm_num [calculatePriceScore, itemWithPrice, jmax]

/-- C5 witness: the theorem instantiated at max price 100, yielding the
spec scenario price 80 ↦ 60. -/
theorem calculatePriceScore_monotone_formula_witness :
    0 < (100 : ℚ) ∧ calculatePriceScore (itemWithPrice 80) (some (JNum.num 100)) = 60 :=
  ⟨by norm_num, (calculatePriceScore_monotone_formula 100 (by norm_num)).2.2.2⟩

/-- C4: `scoreDeal` is a total function (it never propagates an exception),
and whenever its internal feature extraction faults it returns exactly the
neutral fallback deal score: overall 50, confidence 0.1, all six factor scores
50, recommendation fair. -/
theorem scoreDeal_neutral_on_fault (ops : MathOps) (item : RawEbayItem) (cat : Option String) :
    (extractFeaturesE ops item cat = Except.error () →
      scoreDeal ops item cat = neutralDealScore)
    ∧ neutralDealScore =
        { overallScore := 50, confidence := 1/10,
          factors := { priceScore := 50, sellerScore := 50, shippingScore := 50,
                       conditionScore := 50, titleScore := 50, freshnessScore := 50 },
          recommendation := Recommendation.fair } := by
  refine ⟨?_, rfl⟩
  intro h
  simp [scoreDeal, h]

/-- C4 witness: a runtime listing lacking its `price` member makes feature
extraction throw, and `scoreDeal` returns the neutral fallback. -/
theorem scoreDeal_neutral_on_fault_witness :
    extractFeaturesE opsId faultyItem none = Except.error ()
    ∧ scoreDeal opsId faultyItem none = neutralDealScore :=
  ⟨rfl, (scoreDeal_neutral_on_fault opsId faultyItem none).1 rfl⟩

/-- C7: `calculateCosineSimilarity` fails exactly on a dimension mismatch; on
equal lengths it never fails and returns 0 precisely when either vector has
zero norm, otherwise the dot product over the product of the norms.  The
abstract `sqrt` is assumed faithful on the zero set (`sqrt q = 0 ↔ q = 0` for
`q ≥ 0`). -/
theorem calculateCosineSimilarity_spec (ops : MathOps) (a b : List ℚ)
    (hsqrt : ∀ q : ℚ, 0 ≤ q → (ops.sqrt q = 0 ↔ q = 0)) :
    (calculateCosineSimilarity ops a b = Except.error () ↔ a.length ≠ b.length)
    ∧ (a.length = b.length →
        ((sumSquares a = 0 ∨ sumSquares b = 0 →
            calculateCosineSimilarity ops a b = Except.ok 0)
         ∧ (sumSquares a ≠ 0 → sumSquares b ≠ 0 →
            calculateCosineSimilarity ops a b =
              Except.ok (dotProduct a b /
                (ops.sqrt (sumSquares a) * ops.sqrt (sumSquares b)))))) := by
  by_cases hlen : a.length = b.length
  · refine ⟨?_, fun _ => ⟨?_, ?_⟩⟩
    · simp only [calculateCosineSimilarity, if_neg (not_not_intro hlen)]
      constructor
      · intro h
        split at h <;> exact absurd h (by simp)
      · intro h
        exact absurd hlen h
    · intro h0
      have hz : ops.sqrt (sumSquares a) = 0 ∨ ops.sqrt (sumSquares b) = 0 := by
        rcases h0 with h | h
        · exact Or.inl ((hsqrt _ (sumSquares_nonneg a)).mpr h)
        · exact Or.inr ((hsqrt _ (sumSquares_nonneg b)).mpr h)
      simp only [calculateCosineSimilarity, if_neg (not_not_intro hlen), if_pos hz]
    · intro ha hb
      have hz : ¬(ops.sqrt (sumSquares a) = 0 ∨ ops.sqrt (sumSquares b) = 0) := by
        rintro (h | h)
        · exact ha ((hsqrt _ (sumSquares_nonneg a)).mp h)
        · exact hb ((hsqrt _ (sumSquares_nonneg b)).mp h)
      simp only [calculateCosineSimilarity, if_neg (not_not_intro hlen), if_neg hz]
  · refine ⟨?_, fun h => absurd h hlen⟩
    simp only [calculateCosineSimilarity, if_pos hlen]
    exact ⟨fun _ => hlen, fun _ => trivial⟩

/-- C7 witness: with the identity as `sqrt`, a genuine dimension mismatch is
reported as the failure. -/
theorem calculateCosineSimilarity_spec_witness :
    calculateCosineSimilarity opsId [1] [1, 2] = Except.error () :=
  (calculateCosineSimilarity_spec opsId [1] [1, 2] (fun _ _ => Iff.rfl)).1.mpr (by decide)

/-- C1: each fused item's final score is `0.35·semantic + 0.35·deal.overall +
0.30·preference composite` (with the `|| 50` neutral fallback for a missing
semantic score) rounded to 2 decimal places, and the list returned by
`rankItemsWithAI` is sorted non-increasing by that final score. -/
theorem rankItemsWithAI_fusion_formula_sorted :
    (∀ (trad : RankedItem) (sem : Option ℚ) (deal : DealScore),
        (combineScores trad sem deal).aiRankingFactors.finalScore =
          round2 (jsOr sem 50 * (35/100) + deal.overallScore * (35/100) +
            trad.relevanceScore * (30/100)))
    ∧ (∀ (ops : MathOps) (sems : List (Option ℚ)) (items : List EbayItem)
        (prefs : UserPreferences),
        (rankItemsWithAI ops sems items prefs).Pairwise
          (fun a b => b.aiRankingFactors.finalScore ≤ a.aiRankingFactors.finalScore))
    ∧ (∀ (ops : MathOps) (sems : List (Option ℚ)) (items : List EbayItem)
        (prefs : UserPreferences) (r : EnhancedRankedItem),
        r ∈ rankItemsWithAI ops sems items prefs →
        ∃ (trad : RankedItem) (sem : Option ℚ) (deal : DealScore),
          r = combineScores trad sem deal ∧
            r.aiRankingFactors.finalScore =
              round2 (jsOr sem 50 * (35/100) + deal.overallScore * (35/100) +
                trad.relevanceScore * (30/100))) := by
  refine ⟨fun _ _ _ => rfl, fun _ _ _ _ => pairwise_mergeSort_finalScore _, ?_⟩
  intro ops sems items prefs r hr
  simp only [rankItemsWithAI, List.mem_mergeSort, List.mem_map] at hr
  obtain ⟨⟨i, t⟩, _, rfl⟩ := hr
  exact ⟨t, _, _, rfl, rfl⟩

/-- C1 witness: the membership form of the fusion formula applied to the
single output of a one-item ranking request. -/
theorem rankItemsWithAI_fusion_formula_sorted_witness :
    ∃ (trad : RankedItem) (sem : Option ℚ) (deal : DealScore),
      combineScores (calculateRelevanceScore (itemWithPrice 10) prefsNone) none
          (scoreDeal opsId (EbayItem.toRaw (itemWithPrice 10)) none) =
        combineScores trad sem deal ∧
        (combineScores (calculateRelevanceScore (itemWithPrice 10) prefsNone) none
            (scoreDeal opsId (EbayItem.toRaw (itemWithPrice 10)) none)).aiRankingFactors.finalScore =
          round2 (jsOr sem 50 * (35/100) + deal.overallScore * (35/100) +
            trad.relevanceScore * (30/100)) :=
  rankItemsWithAI_fusion_formula_sorted.2.2 opsId [] [itemWithPrice 10] prefsNone _
    (by simp [rankItemsWithAI, getTraditionalRanking, scoreBatchDeals])

/-- C8: the fused path returns one ranked item per input listing (no
filtering), while the preference-only path returns exactly the scored items
whose composite relevance score is strictly positive. -/
theorem rankItemsWithAI_total_rankItems_filters :
    (∀ (ops : MathOps) (sems : List (Option ℚ)) (items : List EbayItem)
        (prefs : UserPreferences),
        (rankItemsWithAI ops sems items prefs).length = items.length)
    ∧ (∀ (items : List EbayItem) (prefs : UserPreferences),
        (rankItems items prefs).Perm
          ((items.map (fun it => calculateRelevanceScore it prefs)).filter
            (fun r => decide (0 < r.relevanceScore)))
        ∧ ∀ r : RankedItem, r ∈ rankItems items prefs ↔
            (r ∈ items.map (fun it => calculateRelevanceScore it prefs) ∧
              0 < r.relevanceScore)) := by
  constructor
  · intro ops sems items prefs
    simp [rankItemsWithAI, getTraditionalRanking]
  · intro items prefs
    unfold rankItems
    have hp := List.mergeSort_perm
      ((items.map (fun it => calculateRelevanceScore it prefs)).filter
        (fun r => decide (0 < r.relevanceScore))) rankedLe
    refine ⟨hp, fun r => ?_⟩
    rw [hp.mem_iff, List.mem_filter]
    simp

/-- C3 (refuting the omission part of the claim): in a ranking request where
no semantic phase ran (`semanticScores = []`), every returned item's
explanation still carries a semantic reason — the 50-neutral bucket
"Somewhat relevant to your search" — because `combineScores` hands the already
defaulted `semanticScore || 50` to `generateExplanation`, whose
`semanticScore ? reason : undefined` test then always sees a truthy 50. -/
theorem semanticReason_present_without_query (ops : MathOps) (items : List EbayItem)
    (prefs : UserPreferences) :
    (rankItemsWithAI ops [] items prefs).map (fun r => r.explanation.semanticReason) =
      List.replicate items.length (some "Somewhat relevant to your search") := by
  rw [List.eq_replicate_iff]
  constructor
  · simp [rankItemsWithAI, getTraditionalRanking]
  · intro b hb
    rw [List.mem_map] at hb
    obtain ⟨r, hr, rfl⟩ := hb
    simp only [rankItemsWithAI, List.mem_mergeSort, List.mem_map] at hr
    obtain ⟨⟨i, t⟩, _, rfl⟩ := hr
    exact combineScores_none_semanticReason _ _

/-- C2 (failing-input evaluation): one 16-item group containing an empty text
before a non-empty one is mis-aligned by `generateBatchEmbeddings` — with a
service that answers `[1]` for every submitted text, the inputs `["", "a"]`
produce `[some [1], none]`: the embedding of `"a"` lands at index 0 (the empty
text's slot) and the `null` padding at index 1, because filtered-out empty
texts are padded at the end of the group instead of at their own positions. -/
theorem generateBatchEmbeddings_misaligned_on_empty :
    generateBatchEmbeddings true callUnit ["", "a"] = [some [1], none] := by
  have h1 : (!(strTrim (preprocessText "")).isEmpty) = false := rfl
  have h2 : (!(strTrim (preprocessText "a")).isEmpty) = true := rfl
  simp [generateBatchEmbeddings, generateBatchEmbeddingsGo, callUnit, h1, h2, List.filter]

/-- C6: for every listing with a non-negative price and all preferences, each
of the five preference sub-scores lies in [0, 100], and the composite equals
the weighted sum with weights 0.25/0.15/0.20/0.15/0.25, rounded to 2 decimal
places. -/
theorem preference_subscores_bounds_composite (item : EbayItem) (prefs : UserPreferences)
    (hp : 0 ≤ item.price) :
    (0 ≤ calculatePriceScore item prefs.maxPrice ∧ calculatePriceScore item prefs.maxPrice ≤ 100)
    ∧ (0 ≤ calculateConditionScore item prefs.preferredCondition ∧
        calculateConditionScore item prefs.preferredCondition ≤ 100)
    ∧ (0 ≤ calculateSellerScore item prefs.minimumSellerRating ∧
        calculateSellerScore item prefs.minimumSellerRating ≤ 100)
    ∧ (0 ≤ calculateShippingScore item prefs.freeShippingOnly ∧
        calculateShippingScore item prefs.freeShippingOnly ≤ 100)
    ∧ (0 ≤ calculateKeywordScore item prefs.keywords ∧
        calculateKeywordScore item prefs.keywords ≤ 100)
    ∧ (calculateRelevanceScore item prefs).relevanceScore =
        round2 (calculatePriceScore item prefs.maxPrice * (25/100) +
          calculateConditionScore item prefs.preferredCondition * (15/100) +
          calculateSellerScore item prefs.minimumSellerRating * (20/100) +
          calculateShippingScore item prefs.freeShippingOnly * (15/100) +
          calculateKeywordScore item prefs.keywords * (25/100)) := by
  have hprice : 0 ≤ calculatePriceScore item prefs.maxPrice ∧
      calculatePriceScore item prefs.maxPrice ≤ 100 := by
    refine ⟨calculatePriceScore_nonneg item _, ?_⟩
    simp only [calculatePriceScore]
    split
    · rename_i m heq
      split_ifs with h0 h1
      · norm_num
      · norm_num
      · rw [jmax_eq]
        have hm : 0 < m := by
          rcases lt_trichotomy m 0 with hneg | hzero | hpos
          · have := le_trans hp (not_lt.mp h1)
            linarith
          · exact absurd hzero h0
          · exact hpos
        have hdiv : 0 ≤ item.price / m * 50 :=
          mul_nonneg (div_nonneg hp hm.le) (by norm_num)
        exact max_le (by norm_num) (by linarith)
    · norm_num
  have hcond : 0 ≤ calculateConditionScore item prefs.preferredCondition ∧
      calculateConditionScore item prefs.preferredCondition ≤ 100 := by
    simp only [calculateConditionScore]
    split
    · norm_num
    · split_ifs <;> norm_num
  have hseller : 0 ≤ calculateSellerScore item prefs.minimumSellerRating ∧
      calculateSellerScore item prefs.minimumSellerRating ≤ 100 := by
    simp only [calculateSellerScore]
    split
    · rename_i m heq
      split_ifs with h0 h1
      · norm_num
      · norm_num
      · rw [jmin_eq, jmin_eq]
        have h2 : 0 ≤ (item.feedbackPercentage - m) * 2 := by
          have := not_lt.mp h1
          nlinarith
        have h3 : (0 : ℚ) ≤ min ((item.feedbackPercentage - m) * 2) 50 :=
          le_min h2 (by norm_num)
        exact ⟨le_min (by norm_num) (by linarith), min_le_left _ _⟩
    · norm_num
  have hship : 0 ≤ calculateShippingScore item prefs.freeShippingOnly ∧
      calculateShippingScore item prefs.freeShippingOnly ≤ 100 := by
    simp only [calculateShippingScore]
    split
    · split
      · split_ifs <;> norm_num
      · norm_num
    · norm_num
  have hkey : 0 ≤ calculateKeywordScore item prefs.keywords ∧
      calculateKeywordScore item prefs.keywords ≤ 100 := by
    simp only [calculateKeywordScore]
    split
    · norm_num
    · split_ifs
      · norm_num
      · rw [jmin_eq]
        refine ⟨le_min (by norm_num) ?_, min_le_left _ _⟩
        positivity
  exact ⟨hprice, hcond, hseller, hship, hkey, rfl⟩

/-- C6 witness: the bounds at a concrete listing and all-absent preferences. -/
theorem preference_subscores_bounds_composite_witness :
    0 ≤ (itemWithPrice 80).price ∧
      0 ≤ calculatePriceScore (itemWithPrice 80) prefsNone.maxPrice :=
  ⟨by norm_num [itemWithPrice],
   (preference_subscores_bounds_composite (itemWithPrice 80) prefsNone
     (by norm_num [itemWithPrice])).1.1⟩

example : calculatePriceScore (itemWithPrice 80) (some (JNum.num 100)) = 60 := by
  norm_num [calculatePriceScore, itemWithPrice, jmax]

example : calculateSellerScore (itemWithPrice 80) (some (JNum.num 95)) = 58 := by
  norm_num [calculateSellerScore, itemWithPrice, jmin]

example : calculateKeywordScore
    { title := "Phone Case Blue", shortDescription := none, price := 80, condition := "NEW",
      feedbackPercentage := 99, shippingOptions := none } (some ["phone", "case"]) = 100 := by
  have h : (List.filter
      (fun k => strIncludes (strLower ("Phone Case Blue" ++ " "))
        (strLower k)) ["phone", "case"]).length = 2 := rfl
  norm_num [calculateKeywordScore, jmin, h]

example : calculateConditionScore (itemWithPrice 80) (some ["USED"]) = 20 := by
  norm_num [calculateConditionScore, itemWithPrice,
    show strUpper "NEW" ≠ strUpper "USED" from by decide,
    show strIncludes (strUpper "USED") "NEW" = false from rfl,
    show strIncludes (strUpper "NEW") "USED" = false from rfl,
    show strIncludes (strUpper "USED") "USED" = true from rfl]

end EbayAlgo
